import Mathlib

/-
Verification of the auto-chicken-door controller (src/chicken_door.ino).

Modelling conventions:
- Timestamps returned by the Arduino millis() function are modelled as Nat.
  The C code stores them in unsigned long and compares differences; we use
  truncated Nat subtraction, which agrees with 32-bit unsigned subtraction
  whenever the minuend is not older than the subtrahend (time is monotone
  and we stay below the 49.7-day wraparound, which no claim is about).
- Each call site of millis() inside one iteration of loop() receives its own
  input value (fields of TickInput), because the real calls happen at
  different moments (the actuation path blocks for over a second).
- analogRead values are Nat inputs; readLightSensor inverts them exactly as
  the code does, producing an Int light level.
- Pin writes, tones, the servo and serial prints have no feedback into the
  decision logic; the observable actuation events that the claims mention
  (startDoorMotor invocations, the stop event, the sample fed to the
  debouncer, a commit of the light state) are returned alongside the state.
- The C int arithmetic in the initializer of minDoorWaitTime is modelled
  with explicit two's-complement wrapping at the int width of the AVR
  target (16 bits), followed by the conversion to unsigned long.
-/

namespace ChickenDoor

/-- The light classification enum of the sketch (line 28). -/
inductive LightState
  | LIGHT
  | DARK
  | NEUTRAL
deriving DecidableEq

/-- lightCheckDelaySeconds (line 6). -/
def lightCheckDelaySeconds : Nat := 15

/-- consecutiveLightCheckMinutes (line 7). -/
def consecutiveLightCheckMinutes : Nat := 5

/-- doorRunTimeSeconds (line 8). -/
def doorRunTimeSeconds : Nat := 20

/-- lightStateThreshold (line 9). -/
def lightStateThreshold : Int := 550

/-- darkStateThreshold (line 10). -/
def darkStateThreshold : Int := 250

/-- holdDelay, unsigned long (line 32). -/
def holdDelay : Nat := 2000

/-- doorRunTime = doorRunTimeSeconds * 1000 (line 37); fits in a 16-bit int. -/
def doorRunTime : Nat := doorRunTimeSeconds * 1000

/-- minDoorWaitTimeHours (line 38). -/
def minDoorWaitTimeHours : Nat := 10

/-- Two's-complement wrap of an integer to a signed width of w bits,
as performed by C int arithmetic of that width. -/
def intWrap (w : Nat) (x : Int) : Int :=
  let m : Int := 2 ^ w
  let r := x % m
  if r < m / 2 then r else r - m

/-- The initializer of minDoorWaitTime (line 39):
minDoorWaitTimeHours * 60 * 60 * 1000 evaluated left to right in C int
arithmetic of width w, then converted to unsigned long (32 bits). -/
def minDoorWaitTimeInit (w : Nat) : Nat :=
  (intWrap w (intWrap w (intWrap w ((minDoorWaitTimeHours : Int) * 60) * 60) * 1000)
    % (2 : Int) ^ 32).toNat

/-- minDoorWaitTime (line 39) as it evaluates on the AVR target, where int is
16 bits wide. The multiplication 10*60*60*1000 overflows there. -/
def minDoorWaitTime : Nat := minDoorWaitTimeInit 16

/-- lightCheckDelay = lightCheckDelaySeconds * 1000 (line 57); fits in int. -/
def lightCheckDelay : Nat := lightCheckDelaySeconds * 1000

/-- newStateThreshold (line 58): ceil((consecutiveLightCheckMinutes * 60000) /
lightCheckDelay). The literal 60000 has type long on AVR, so the product is
computed in 32 bits without overflow; the division is integer division (whose
result ceil leaves unchanged). -/
def newStateThreshold : Nat := (consecutiveLightCheckMinutes * 60000) / lightCheckDelay

/-- getLightState (lines 148-156). -/
def getLightState (lightValue : Int) : LightState :=
  if lightValue ≤ darkStateThreshold then LightState.DARK
  else if lightStateThreshold ≤ lightValue then LightState.LIGHT
  else LightState.NEUTRAL

/-- readLightSensor (lines 158-165): inverts the raw analog reading so that
dark is 0 and light is 1023. -/
def readLightSensor (analogValue : Nat) : Int := 1023 - (analogValue : Int)

/-- The mutable globals of the sketch that carry decision state
(lines 31, 35, 36, 40, 55, 56, 59). -/
structure DoorState where
  startHoldTime : Nat
  doorRunning : Bool
  doorRunningStartTime : Nat
  lastDoorMotorRunTime : Nat
  currentLightState : LightState
  lastLightCheck : Nat
  newStateCount : Nat
deriving DecidableEq

/-- The external values consumed by one iteration of loop(): one value per
millis() call site, the raw analog readings, and the button level. -/
structure TickInput where
  /-- millis() at line 94 (currentTime). -/
  t0 : Nat
  /-- analogRead in the readLightSensor call of line 97. -/
  analog1 : Nat
  /-- digitalRead(buttonPin) == LOW at line 122. -/
  buttonLow : Bool
  /-- millis() in the hold-duration comparison, line 124. -/
  tBtn : Nat
  /-- millis() stored into startHoldTime on a confirmed trigger, line 129. -/
  tHold : Nat
  /-- analogRead in the readLightSensor call of line 131. -/
  analog2 : Nat
  /-- millis() stored into startHoldTime when the button is up, line 138. -/
  tRel : Nat
  /-- millis() inside a commit-path startDoorMotor call, line 177. -/
  tS1 : Nat
  /-- millis() inside a button-path startDoorMotor call, line 177. -/
  tS2 : Nat
  /-- millis() inside the isDoorMotorDone poll, line 184. -/
  tDone : Nat
deriving DecidableEq

/-- startDoorMotor (lines 168-181), state part: sets doorRunning and records
the start time; the unlock sequence, LED, tone, relay and motor writes have
no feedback into the state. t is the millis() value read at line 177. -/
def startDoorMotor (s : DoorState) (t : Nat) : DoorState :=
  { s with doorRunning := true, doorRunningStartTime := t }

/-- isDoorMotorDone (lines 183-188). -/
def isDoorMotorDone (s : DoorState) (now : Nat) : Bool :=
  s.doorRunning && doorRunTime ≤ now - s.doorRunningStartTime

/-- stopDoorMotor (lines 190-203), state part: clears doorRunning; the motor,
relay, lock and LED writes have no feedback into the state. -/
def stopDoorMotor (s : DoorState) : DoorState :=
  { s with doorRunning := false }

/-- Result of the light-sampling block of loop() (lines 96-119). -/
structure LightOut where
  state : DoorState
  /-- millis() values recorded by startDoorMotor calls made in the block. -/
  starts : List Nat
  /-- true when the block committed a new light state (lines 111-117). -/
  committed : Bool
  /-- the light level fed to the debouncer, none when the gate was closed. -/
  sampled : Option Int
deriving DecidableEq

/-- Lines 99-107: advance newStateCount on a non-neutral disagreeing sample,
reset it on a neutral or agreeing one. -/
def countStep (s : DoorState) (newLightState : LightState) : DoorState :=
  if newLightState ≠ LightState.NEUTRAL ∧ newLightState ≠ s.currentLightState
  then { s with newStateCount := s.newStateCount + 1 }
  else { s with newStateCount := 0 }

/-- Lines 110-118: once the counter reaches newStateThreshold, commit the
sampled state, clear the counter, restart the dwell countdown and start the
motor; in either case record the check time. s1 is the state after
countStep. -/
def commitStep (s1 : DoorState) (currentTime : Nat) (newLightState : LightState)
    (lightLevel : Int) (tS1 : Nat) : LightOut :=
  if newStateThreshold ≤ s1.newStateCount then
    { state := startDoorMotor
        { s1 with currentLightState := newLightState,
                  newStateCount := 0,
                  lastDoorMotorRunTime := currentTime,
                  lastLightCheck := currentTime } tS1,
      starts := [tS1], committed := true, sampled := some lightLevel }
  else
    { state := { s1 with lastLightCheck := currentTime },
      starts := [], committed := false, sampled := some lightLevel }

/-- Lines 96-119: when both the sampling interval and the door-wait dwell
have elapsed, classify a fresh reading, advance or reset newStateCount, and
on reaching newStateThreshold commit the new state and start the motor. -/
def lightPhase (s : DoorState) (currentTime : Nat) (analog1 : Nat) (tS1 : Nat) : LightOut :=
  if lightCheckDelay ≤ currentTime - s.lastLightCheck
      ∧ minDoorWaitTime ≤ currentTime - s.lastDoorMotorRunTime then
    commitStep (countStep s (getLightState (readLightSensor analog1))) currentTime
      (getLightState (readLightSensor analog1)) (readLightSensor analog1) tS1
  else
    { state := s, starts := [], committed := false, sampled := none }

/-- Result of the button block of loop() (lines 122-139). -/
structure ButtonOut where
  state : DoorState
  starts : List Nat
deriving DecidableEq

/-- Lines 122-139: a button held past holdDelay resets the hold timer,
resynchronizes the committed light state to the instantaneous reading,
clears the counter, restarts the dwell countdown and starts the motor;
an unpressed button resets the hold timer. -/
def buttonPhase (s : DoorState) (currentTime : Nat) (i : TickInput) : ButtonOut :=
  if i.buttonLow then
    if holdDelay < i.tBtn - s.startHoldTime then
      { state := startDoorMotor
          { s with startHoldTime := i.tHold,
                   currentLightState := getLightState (readLightSensor i.analog2),
                   newStateCount := 0,
                   lastDoorMotorRunTime := currentTime } i.tS2,
        starts := [i.tS2] }
    else
      { state := s, starts := [] }
  else
    { state := { s with startHoldTime := i.tRel }, starts := [] }

/-- Result of the completion poll of loop() (lines 142-144). -/
structure DoneOut where
  state : DoorState
  stopped : Bool
deriving DecidableEq

/-- Lines 142-144: stop the motor once the run duration has elapsed. -/
def donePhase (s : DoorState) (tDone : Nat) : DoneOut :=
  if s.doorRunning && isDoorMotorDone s tDone then
    { state := stopDoorMotor s, stopped := true }
  else
    { state := s, stopped := false }

/-- Observable outcome of one iteration of loop(). -/
structure TickOut where
  state : DoorState
  starts : List Nat
  committed : Bool
  sampled : Option Int
  stopped : Bool
deriving DecidableEq

/-- One iteration of loop() (lines 92-145): the sampling block and the
button block run only while the door is not running, the completion poll
runs unconditionally at the end. -/
def tick (s : DoorState) (i : TickInput) : TickOut :=
  if s.doorRunning then
    let d := donePhase s i.tDone
    { state := d.state, starts := [], committed := false, sampled := none,
      stopped := d.stopped }
  else
    let a := lightPhase s i.t0 i.analog1 i.tS1
    let b := buttonPhase a.state i.t0 i
    let d := donePhase b.state i.tDone
    { state := d.state, starts := a.starts ++ b.starts, committed := a.committed,
      sampled := a.sampled, stopped := d.stopped }

/-- The state produced by setup() (lines 62-89): all timers at 0, door idle,
and the committed light state seeded from the average of five sensor reads
(integer division, lines 79-84). -/
def initState (boot : Fin 5 → Nat) : DoorState :=
  { startHoldTime := 0
    doorRunning := false
    doorRunningStartTime := 0
    lastDoorMotorRunTime := 0
    currentLightState := getLightState (((List.ofFn boot).map readLightSensor).sum / 5)
    lastLightCheck := 0
    newStateCount := 0 }

/-- States reachable from boot by iterations of loop() with arbitrary
external inputs. -/
inductive Reachable : DoorState → Prop
  | init (boot : Fin 5 → Nat) : Reachable (initState boot)
  | step (s : DoorState) (i : TickInput) : Reachable s → Reachable (tick s i).state

/-- Iterated loop() over a list of per-iteration inputs. -/
def runTicks (s : DoorState) (is : List TickInput) : DoorState :=
  is.foldl (fun t i => (tick t i).state) s

/-- Number of light-state commits performed along a run. -/
def commitsIn : DoorState → List TickInput → Nat
  | _, [] => 0
  | s, i :: js => (if (tick s i).committed then 1 else 0) + commitsIn (tick s i).state js

/-- The button block fires a confirmed manual trigger on this tick. The
light block never touches startHoldTime, so this only depends on the
pre-tick state. -/
def manualTrigger (s : DoorState) (i : TickInput) : Prop :=
  s.doorRunning = false ∧ i.buttonLow = true ∧ holdDelay < i.tBtn - s.startHoldTime

instance (s : DoorState) (i : TickInput) : Decidable (manualTrigger s i) := by
  unfold manualTrigger
  infer_instance

/-- Every automatic commit in the run happens at a decision time of at least
the bound. -/
def noEarlyCommit (bound : Nat) : DoorState → List TickInput → Bool
  | _, [] => true
  | s, i :: js =>
    (!(tick s i).committed || decide (bound ≤ i.t0)) && noEarlyCommit bound (tick s i).state js

/-- Boot readings that average to a fully dark sensor: the inverted level is
0, classified DARK. -/
def darkBoot : Fin 5 → Nat := fun _ => 1023

/-- Nineteen sampling iterations, 15000 ms apart starting at t = 30000, each
reading a fully lit sensor (analog 0, inverted level 1023) with the button
up. -/
def c1Prefix : List TickInput :=
  (List.range 19).map (fun k =>
    { t0 := 30000 + 15000 * k, analog1 := 0, buttonLow := false,
      tBtn := 0, tHold := 0, analog2 := 0, tRel := 30000 + 15000 * k,
      tS1 := 30000 + 15000 * k, tS2 := 0, tDone := 30000 + 15000 * k })

/-- A twentieth lit sample at t = 315000 with the button held long enough to
confirm: the commit fires and then the button trigger fires in the same
iteration. -/
def c1Input : TickInput :=
  { t0 := 315000, analog1 := 0, buttonLow := true, tBtn := 317000,
    tHold := 317001, analog2 := 600, tRel := 0, tS1 := 315001,
    tS2 := 317002, tDone := 317003 }

/-- A twentieth lit sample at t = 315000 with the button up. -/
def commitInput : TickInput :=
  { t0 := 315000, analog1 := 0, buttonLow := false, tBtn := 0,
    tHold := 0, analog2 := 0, tRel := 315000, tS1 := 315001,
    tS2 := 0, tDone := 315002 }

/-- A button press confirmed at t = 3000 from boot, with an instantaneous
reading in the dead band (analog 600, inverted level 423, NEUTRAL). -/
def c2Input : TickInput :=
  { t0 := 3000, analog1 := 0, buttonLow := true, tBtn := 3000,
    tHold := 3001, analog2 := 600, tRel := 0, tS1 := 0,
    tS2 := 3002, tDone := 3003 }

/-- Scenario D, first poll: button held, observed at t = 2000 exactly. -/
def held2000 : TickInput :=
  { t0 := 2000, analog1 := 500, buttonLow := true, tBtn := 2000,
    tHold := 2000, analog2 := 500, tRel := 0, tS1 := 0,
    tS2 := 2001, tDone := 2002 }

/-- Scenario D, second poll: button still held, observed at t = 2300. -/
def held2300 : TickInput :=
  { t0 := 2300, analog1 := 500, buttonLow := true, tBtn := 2300,
    tHold := 2300, analog2 := 500, tRel := 0, tS1 := 0,
    tS2 := 2301, tDone := 2302 }

/-- Scenario D, third poll: button still held, observed at t = 2500. -/
def held2500 : TickInput :=
  { t0 := 2500, analog1 := 500, buttonLow := true, tBtn := 2500,
    tHold := 2500, analog2 := 500, tRel := 0, tS1 := 0,
    tS2 := 2501, tDone := 2502 }

/-- A manual start at t = 3000 (button confirmed, readings in the dead
band). -/
def c4Start : TickInput :=
  { t0 := 3000, analog1 := 500, buttonLow := true, tBtn := 3000, tHold := 3000,
    analog2 := 500, tRel := 0, tS1 := 0, tS2 := 3000, tDone := 3001 }

/-- The completion poll at t = 30000, observing the 20000 ms run elapsed. -/
def c4Stop : TickInput :=
  { t0 := 30000, analog1 := 500, buttonLow := false, tBtn := 30000, tHold := 30000,
    analog2 := 500, tRel := 30000, tS1 := 30000, tS2 := 30000, tDone := 30000 }

/-- A sampling iteration at t = 40000, after the completed run. -/
def c4After : TickInput :=
  { t0 := 40000, analog1 := 0, buttonLow := false, tBtn := 40000, tHold := 40000,
    analog2 := 0, tRel := 40000, tS1 := 40000, tS2 := 40000, tDone := 40000 }

/-- After an actuation observed complete at time T, a nonzero debounce count
testifies that its consecutive samples were all taken after T, at check
times at least lightCheckDelay apart. -/
def InvC4 (T : Nat) (s : DoorState) : Prop :=
  1 ≤ s.newStateCount →
    T + (s.newStateCount - 1) * lightCheckDelay ≤ s.lastLightCheck

/- ### Helper lemmas -/

theorem reachable_runTicks (is : List TickInput) (s : DoorState) (h : Reachable s) :
    Reachable (runTicks s is) := by
  induction is generalizing s with
  | nil => exact h
  | cons i js ih => exact ih (tick s i).state (Reachable.step s i h)

theorem lightPhase_startHoldTime (s : DoorState) (ct a1 tS1 : Nat) :
    (lightPhase s ct a1 tS1).state.startHoldTime = s.startHoldTime := by
  unfold lightPhase commitStep countStep startDoorMotor
  split_ifs <;> rfl

theorem lightPhase_closed (s : DoorState) (ct a1 tS1 : Nat)
    (h : ct - s.lastLightCheck < lightCheckDelay ∨
         ct - s.lastDoorMotorRunTime < minDoorWaitTime) :
    lightPhase s ct a1 tS1 = ⟨s, [], false, none⟩ := by
  unfold lightPhase
  rw [if_neg]
  rintro ⟨h1, h2⟩
  rcases h with h | h <;> omega

theorem donePhase_cases (s : DoorState) (t : Nat) :
    donePhase s t = ⟨s, false⟩ ∨
    (s.doorRunning = true ∧ isDoorMotorDone s t = true ∧
      donePhase s t = ⟨stopDoorMotor s, true⟩) := by
  unfold donePhase
  rcases hr : s.doorRunning with _ | _
  · left; simp [hr]
  · rcases hd : isDoorMotorDone s t with _ | _
    · left; simp [hd]
    · right; exact ⟨rfl, rfl, by simp [hd]⟩

theorem tick_running (s : DoorState) (i : TickInput) (h : s.doorRunning = true) :
    tick s i = ⟨(donePhase s i.tDone).state, [], false, none,
                 (donePhase s i.tDone).stopped⟩ := by
  unfold tick
  rw [if_pos h]

theorem donePhase_idle (s : DoorState) (t : Nat) (h : s.doorRunning = false) :
    donePhase s t = ⟨s, false⟩ := by
  unfold donePhase
  rw [if_neg (by simp [h])]

theorem buttonPhase_held_short (s : DoorState) (ct : Nat) (i : TickInput)
    (hlow : i.buttonLow = true) (hsh : i.tBtn - s.startHoldTime ≤ holdDelay) :
    buttonPhase s ct i = ⟨s, []⟩ := by
  unfold buttonPhase
  rw [if_pos hlow, if_neg (by omega)]

theorem buttonPhase_trigger (s : DoorState) (ct : Nat) (i : TickInput)
    (hlow : i.buttonLow = true) (hld : holdDelay < i.tBtn - s.startHoldTime) :
    buttonPhase s ct i = ⟨startDoorMotor
      { s with startHoldTime := i.tHold,
               currentLightState := getLightState (readLightSensor i.analog2),
               newStateCount := 0, lastDoorMotorRunTime := ct } i.tS2, [i.tS2]⟩ := by
  unfold buttonPhase
  rw [if_pos hlow, if_pos hld]

theorem buttonPhase_up (s : DoorState) (ct : Nat) (i : TickInput)
    (hlow : i.buttonLow = false) :
    buttonPhase s ct i = ⟨{ s with startHoldTime := i.tRel }, []⟩ := by
  unfold buttonPhase
  rw [if_neg (by simp [hlow])]

theorem tick_idle (s : DoorState) (i : TickInput) (h : s.doorRunning = false) :
    tick s i =
      ⟨(donePhase (buttonPhase (lightPhase s i.t0 i.analog1 i.tS1).state i.t0 i).state i.tDone).state,
        (lightPhase s i.t0 i.analog1 i.tS1).starts ++
          (buttonPhase (lightPhase s i.t0 i.analog1 i.tS1).state i.t0 i).starts,
        (lightPhase s i.t0 i.analog1 i.tS1).committed,
        (lightPhase s i.t0 i.analog1 i.tS1).sampled,
        (donePhase (buttonPhase (lightPhase s i.t0 i.analog1 i.tS1).state i.t0 i).state i.tDone).stopped⟩ := by
  unfold tick
  rw [if_neg (by simp [h])]

theorem tick_idle_closed (s : DoorState) (i : TickInput) (hrun : s.doorRunning = false)
    (hlt : i.t0 - s.lastLightCheck < lightCheckDelay ∨
           i.t0 - s.lastDoorMotorRunTime < minDoorWaitTime) :
    tick s i = ⟨(donePhase (buttonPhase s i.t0 i).state i.tDone).state,
                (buttonPhase s i.t0 i).starts, false, none,
                (donePhase (buttonPhase s i.t0 i).state i.tDone).stopped⟩ := by
  rw [tick_idle s i hrun, lightPhase_closed s i.t0 i.analog1 i.tS1 hlt]
  rfl

theorem lightPhase_open (s : DoorState) (ct a1 tS1 : Nat)
    (h : lightCheckDelay ≤ ct - s.lastLightCheck ∧
         minDoorWaitTime ≤ ct - s.lastDoorMotorRunTime) :
    lightPhase s ct a1 tS1 =
      commitStep (countStep s (getLightState (readLightSensor a1))) ct
        (getLightState (readLightSensor a1)) (readLightSensor a1) tS1 := by
  unfold lightPhase
  rw [if_pos h]

theorem countStep_inc (s : DoorState) (ns : LightState)
    (h1 : ns ≠ LightState.NEUTRAL) (h2 : ns ≠ s.currentLightState) :
    countStep s ns = { s with newStateCount := s.newStateCount + 1 } := by
  unfold countStep
  rw [if_pos ⟨h1, h2⟩]

theorem countStep_reset (s : DoorState) (ns : LightState)
    (h : ¬(ns ≠ LightState.NEUTRAL ∧ ns ≠ s.currentLightState)) :
    countStep s ns = { s with newStateCount := 0 } := by
  unfold countStep
  rw [if_neg h]

theorem commitStep_yes (s1 : DoorState) (ct : Nat) (ns : LightState) (ll : Int) (tS1 : Nat)
    (h : newStateThreshold ≤ s1.newStateCount) :
    commitStep s1 ct ns ll tS1 =
      ⟨startDoorMotor { s1 with currentLightState := ns, newStateCount := 0,
                                lastDoorMotorRunTime := ct, lastLightCheck := ct } tS1,
        [tS1], true, some ll⟩ := by
  unfold commitStep
  rw [if_pos h]

theorem commitStep_no (s1 : DoorState) (ct : Nat) (ns : LightState) (ll : Int) (tS1 : Nat)
    (h : ¬ newStateThreshold ≤ s1.newStateCount) :
    commitStep s1 ct ns ll tS1 =
      ⟨{ s1 with lastLightCheck := ct }, [], false, some ll⟩ := by
  unfold commitStep
  rw [if_neg h]

theorem donePhase_fields (s1 : DoorState) (t : Nat) :
    (donePhase s1 t).state.currentLightState = s1.currentLightState ∧
    (donePhase s1 t).state.newStateCount = s1.newStateCount ∧
    (donePhase s1 t).state.lastLightCheck = s1.lastLightCheck ∧
    (donePhase s1 t).state.startHoldTime = s1.startHoldTime ∧
    (donePhase s1 t).state.lastDoorMotorRunTime = s1.lastDoorMotorRunTime := by
  rcases donePhase_cases s1 t with hc | ⟨_, _, hc⟩ <;>
    (rw [hc]; exact ⟨rfl, rfl, rfl, rfl, rfl⟩)

theorem buttonPhase_no_trigger (s1 : DoorState) (ct : Nat) (i : TickInput)
    (h : ¬(i.buttonLow = true ∧ holdDelay < i.tBtn - s1.startHoldTime)) :
    (buttonPhase s1 ct i).starts = [] ∧
    (buttonPhase s1 ct i).state.currentLightState = s1.currentLightState ∧
    (buttonPhase s1 ct i).state.newStateCount = s1.newStateCount ∧
    (buttonPhase s1 ct i).state.lastLightCheck = s1.lastLightCheck ∧
    (buttonPhase s1 ct i).state.doorRunning = s1.doorRunning ∧
    (buttonPhase s1 ct i).state.lastDoorMotorRunTime = s1.lastDoorMotorRunTime := by
  rcases hlow : i.buttonLow with _ | _
  · rw [buttonPhase_up s1 ct i hlow]
    exact ⟨rfl, rfl, rfl, rfl, rfl, rfl⟩
  · have hsh : i.tBtn - s1.startHoldTime ≤ holdDelay := by
      by_contra hc
      exact h ⟨hlow, by omega⟩
    rw [buttonPhase_held_short s1 ct i hlow hsh]
    exact ⟨rfl, rfl, rfl, rfl, rfl, rfl⟩

theorem buttonPhase_count_cases (s1 : DoorState) (ct : Nat) (i : TickInput) :
    (buttonPhase s1 ct i).state.newStateCount = 0 ∨
    (buttonPhase s1 ct i).state.newStateCount = s1.newStateCount := by
  by_cases hb : i.buttonLow = true ∧ holdDelay < i.tBtn - s1.startHoldTime
  · left
    rw [buttonPhase_trigger s1 ct i hb.1 hb.2]
    rfl
  · right
    exact (buttonPhase_no_trigger s1 ct i hb).2.2.1

theorem buttonPhase_llc (s1 : DoorState) (ct : Nat) (i : TickInput) :
    (buttonPhase s1 ct i).state.lastLightCheck = s1.lastLightCheck := by
  unfold buttonPhase startDoorMotor
  split_ifs <;> rfl

theorem tick_count_llc (s : DoorState) (i : TickInput) :
    (tick s i).state.newStateCount = 0 ∨
    ((tick s i).state.newStateCount = s.newStateCount ∧
     (tick s i).state.lastLightCheck = s.lastLightCheck) ∨
    (lightCheckDelay ≤ i.t0 - s.lastLightCheck ∧
     s.newStateCount + 1 < newStateThreshold ∧
     (tick s i).state.newStateCount = s.newStateCount + 1 ∧
     (tick s i).state.lastLightCheck = i.t0) := by
  by_cases hr : s.doorRunning = true
  · right; left
    rw [tick_running s i hr]
    exact ⟨(donePhase_fields s i.tDone).2.1, (donePhase_fields s i.tDone).2.2.1⟩
  · rw [Bool.not_eq_true] at hr
    by_cases hg : lightCheckDelay ≤ i.t0 - s.lastLightCheck ∧
        minDoorWaitTime ≤ i.t0 - s.lastDoorMotorRunTime
    · rw [tick_idle s i hr, lightPhase_open s i.t0 i.analog1 i.tS1 hg]
      by_cases hcls : getLightState (readLightSensor i.analog1) ≠ LightState.NEUTRAL ∧
          getLightState (readLightSensor i.analog1) ≠ s.currentLightState
      · rw [countStep_inc s _ hcls.1 hcls.2]
        by_cases hth : newStateThreshold ≤ s.newStateCount + 1
        · left
          rw [commitStep_yes _ i.t0 _ _ i.tS1 hth]
          dsimp only
          have hd := (donePhase_fields (buttonPhase (startDoorMotor
            { s with currentLightState := getLightState (readLightSensor i.analog1),
                     newStateCount := 0, lastDoorMotorRunTime := i.t0,
                     lastLightCheck := i.t0 } i.tS1) i.t0 i).state i.tDone).2.1
          rcases buttonPhase_count_cases (startDoorMotor
            { s with currentLightState := getLightState (readLightSensor i.analog1),
                     newStateCount := 0, lastDoorMotorRunTime := i.t0,
                     lastLightCheck := i.t0 } i.tS1) i.t0 i with hbc | hbc <;>
            exact hd.trans hbc
        · rw [commitStep_no _ i.t0 _ _ i.tS1 hth]
          dsimp only
          by_cases htr : i.buttonLow = true ∧ holdDelay < i.tBtn - s.startHoldTime
          · left
            rw [buttonPhase_trigger
              { s with lastLightCheck := i.t0, newStateCount := s.newStateCount + 1 }
              i.t0 i htr.1 htr.2]
            exact (donePhase_fields _ i.tDone).2.1
          · right; right
            have hb := buttonPhase_no_trigger
              { s with lastLightCheck := i.t0, newStateCount := s.newStateCount + 1 }
              i.t0 i htr
            exact ⟨hg.1, by omega, ((donePhase_fields _ i.tDone).2.1).trans hb.2.2.1,
                   ((donePhase_fields _ i.tDone).2.2.1).trans hb.2.2.2.1⟩
      · left
        have h0 : ¬ newStateThreshold ≤ (0 : Nat) := by decide
        rw [countStep_reset s _ hcls, commitStep_no _ i.t0 _ _ i.tS1 h0]
        dsimp only
        have hd := (donePhase_fields (buttonPhase
          { s with lastLightCheck := i.t0, newStateCount := 0 } i.t0 i).state i.tDone).2.1
        rcases buttonPhase_count_cases
          { s with lastLightCheck := i.t0, newStateCount := 0 } i.t0 i with hbc | hbc <;>
          exact hd.trans hbc
    · have e1 : lightCheckDelay = 15000 := rfl
      have e2 : minDoorWaitTime = 20736 := by decide
      have hlt : i.t0 - s.lastLightCheck < lightCheckDelay ∨
          i.t0 - s.lastDoorMotorRunTime < minDoorWaitTime := by omega
      rw [tick_idle_closed s i hr hlt]
      dsimp only
      by_cases htr : i.buttonLow = true ∧ holdDelay < i.tBtn - s.startHoldTime
      · left
        rw [buttonPhase_trigger s i.t0 i htr.1 htr.2]
        exact (donePhase_fields _ i.tDone).2.1
      · right; left
        have hb := buttonPhase_no_trigger s i.t0 i htr
        exact ⟨((donePhase_fields _ i.tDone).2.1).trans hb.2.2.1,
               ((donePhase_fields _ i.tDone).2.2.1).trans hb.2.2.2.1⟩

theorem reachable_count_lt (s : DoorState) (h : Reachable s) :
    s.newStateCount < newStateThreshold := by
  induction h with
  | init boot => exact (by decide : (0 : Nat) < newStateThreshold)
  | step s i hs ih =>
    rcases tick_count_llc s i with hc | ⟨hc, _⟩ | ⟨_, hlt, hc, _⟩
    · rw [hc]; decide
    · rw [hc]; exact ih
    · rw [hc]; exact hlt

theorem tick_committed_struct (s : DoorState) (i : TickInput)
    (h : (tick s i).committed = true) :
    lightCheckDelay ≤ i.t0 - s.lastLightCheck ∧
    minDoorWaitTime ≤ i.t0 - s.lastDoorMotorRunTime ∧
    newStateThreshold ≤ s.newStateCount + 1 := by
  by_cases hr : s.doorRunning = true
  · rw [tick_running s i hr] at h
    exact absurd h (by simp)
  · rw [Bool.not_eq_true] at hr
    rw [tick_idle s i hr] at h
    dsimp only at h
    by_cases hg : lightCheckDelay ≤ i.t0 - s.lastLightCheck ∧
        minDoorWaitTime ≤ i.t0 - s.lastDoorMotorRunTime
    · refine ⟨hg.1, hg.2, ?_⟩
      rw [lightPhase_open s i.t0 i.analog1 i.tS1 hg] at h
      by_cases hcls : getLightState (readLightSensor i.analog1) ≠ LightState.NEUTRAL ∧
          getLightState (readLightSensor i.analog1) ≠ s.currentLightState
      · rw [countStep_inc s _ hcls.1 hcls.2] at h
        by_cases hth : newStateThreshold ≤ s.newStateCount + 1
        · exact hth
        · rw [commitStep_no _ i.t0 _ _ i.tS1 hth] at h
          exact absurd h (by simp)
      · have h0 : ¬ newStateThreshold ≤ (0 : Nat) := by decide
        rw [countStep_reset s _ hcls, commitStep_no _ i.t0 _ _ i.tS1 h0] at h
        exact absurd h (by simp)
    · have e1 : lightCheckDelay = 15000 := rfl
      have e2 : minDoorWaitTime = 20736 := by decide
      have hlt : i.t0 - s.lastLightCheck < lightCheckDelay ∨
          i.t0 - s.lastDoorMotorRunTime < minDoorWaitTime := by omega
      rw [lightPhase_closed s i.t0 i.analog1 i.tS1 hlt] at h
      exact absurd h (by simp)

theorem idle_running_count (s : DoorState) (i : TickInput) (hr : s.doorRunning = false)
    (hb : (buttonPhase (lightPhase s i.t0 i.analog1 i.tS1).state i.t0 i).state.doorRunning
      = true) :
    (buttonPhase (lightPhase s i.t0 i.analog1 i.tS1).state i.t0 i).state.newStateCount
      = 0 := by
  by_cases htr : i.buttonLow = true ∧
      holdDelay < i.tBtn - (lightPhase s i.t0 i.analog1 i.tS1).state.startHoldTime
  · rw [buttonPhase_trigger (lightPhase s i.t0 i.analog1 i.tS1).state i.t0 i htr.1 htr.2]
    rfl
  · have hnb := buttonPhase_no_trigger (lightPhase s i.t0 i.analog1 i.tS1).state i.t0 i htr
    rw [hnb.2.2.1]
    have hlrun : (lightPhase s i.t0 i.analog1 i.tS1).state.doorRunning = true := by
      rw [← hnb.2.2.2.2.1]
      exact hb
    by_cases hg : lightCheckDelay ≤ i.t0 - s.lastLightCheck ∧
        minDoorWaitTime ≤ i.t0 - s.lastDoorMotorRunTime
    · rw [lightPhase_open s i.t0 i.analog1 i.tS1 hg] at hlrun ⊢
      by_cases hcls : getLightState (readLightSensor i.analog1) ≠ LightState.NEUTRAL ∧
          getLightState (readLightSensor i.analog1) ≠ s.currentLightState
      · rw [countStep_inc s _ hcls.1 hcls.2] at hlrun ⊢
        by_cases hth : newStateThreshold ≤ s.newStateCount + 1
        · rw [commitStep_yes _ i.t0 _ _ i.tS1 hth]
          rfl
        · rw [commitStep_no _ i.t0 _ _ i.tS1 hth] at hlrun
          dsimp only at hlrun
          rw [hr] at hlrun
          exact absurd hlrun (by simp)
      · have h0 : ¬ newStateThreshold ≤ (0 : Nat) := by decide
        rw [countStep_reset s _ hcls, commitStep_no _ i.t0 _ _ i.tS1 h0] at hlrun
        dsimp only at hlrun
        rw [hr] at hlrun
        exact absurd hlrun (by simp)
    · have e1 : lightCheckDelay = 15000 := rfl
      have e2 : minDoorWaitTime = 20736 := by decide
      have hlt : i.t0 - s.lastLightCheck < lightCheckDelay ∨
          i.t0 - s.lastDoorMotorRunTime < minDoorWaitTime := by omega
      rw [lightPhase_closed s i.t0 i.analog1 i.tS1 hlt] at hlrun
      dsimp only at hlrun
      rw [hr] at hlrun
      exact absurd hlrun (by simp)

theorem tick_running_count (s : DoorState) (i : TickInput)
    (hrun : (tick s i).state.doorRunning = true) :
    (s.doorRunning = true ∧ (tick s i).state = s) ∨
    (tick s i).state.newStateCount = 0 := by
  by_cases hr : s.doorRunning = true
  · rw [tick_running s i hr] at hrun ⊢
    rcases donePhase_cases s i.tDone with hc | ⟨_, _, hc⟩
    · rw [hc]
      exact Or.inl ⟨hr, rfl⟩
    · rw [hc] at hrun
      exact absurd hrun (by simp [stopDoorMotor])
  · rw [Bool.not_eq_true] at hr
    right
    rw [tick_idle s i hr] at hrun ⊢
    dsimp only at hrun ⊢
    rcases donePhase_cases
        (buttonPhase (lightPhase s i.t0 i.analog1 i.tS1).state i.t0 i).state i.tDone
      with hc | ⟨hbrun, _, hc⟩
    · rw [hc] at hrun ⊢
      exact idle_running_count s i hr hrun
    · rw [hc] at hrun
      exact absurd hrun (by simp [stopDoorMotor])

theorem tick_stopped_count (s : DoorState) (i : TickInput)
    (hstop : (tick s i).stopped = true) :
    (s.doorRunning = true ∧ (tick s i).state = stopDoorMotor s) ∨
    (tick s i).state.newStateCount = 0 := by
  by_cases hr : s.doorRunning = true
  · left
    rw [tick_running s i hr] at hstop ⊢
    dsimp only at hstop ⊢
    rcases donePhase_cases s i.tDone with hc | ⟨_, _, hc⟩
    · rw [hc] at hstop
      exact absurd hstop (by simp)
    · rw [hc]
      exact ⟨hr, rfl⟩
  · right
    rw [Bool.not_eq_true] at hr
    rw [tick_idle s i hr] at hstop ⊢
    dsimp only at hstop ⊢
    rcases donePhase_cases
        (buttonPhase (lightPhase s i.t0 i.analog1 i.tS1).state i.t0 i).state i.tDone
      with hc | ⟨hbrun, _, hc⟩
    · rw [hc] at hstop
      exact absurd hstop (by simp)
    · rw [hc]
      exact idle_running_count s i hr hbrun

theorem reachable_running_count (s : DoorState) (h : Reachable s) :
    s.doorRunning = true → s.newStateCount = 0 := by
  induction h with
  | init boot =>
    intro hb
    exact absurd hb (by simp [initState])
  | step s i hs ih =>
    intro hrun
    rcases tick_running_count s i hrun with ⟨hr, he⟩ | hc
    · rw [he]
      exact ih hr
    · exact hc

theorem stopped_count_zero (s : DoorState) (i : TickInput) (hreach : Reachable s)
    (hstop : (tick s i).stopped = true) :
    (tick s i).state.newStateCount = 0 := by
  rcases tick_stopped_count s i hstop with ⟨hr, he⟩ | hc
  · rw [he]
    exact reachable_running_count s hreach hr
  · exact hc

theorem invC4_step (T : Nat) (s : DoorState) (i : TickInput)
    (hInv : InvC4 T s) (ht : T ≤ i.t0) :
    InvC4 T (tick s i).state ∧
    ((tick s i).committed = true → T + minDoorWaitTime ≤ i.t0) := by
  have e1 : lightCheckDelay = 15000 := rfl
  have e2 : minDoorWaitTime = 20736 := by decide
  have e3 : newStateThreshold = 20 := by decide
  unfold InvC4 at hInv ⊢
  rw [e1] at hInv ⊢
  constructor
  · rcases tick_count_llc s i with hc | ⟨hc1, hc2⟩ | ⟨hg, _, hc1, hc2⟩
    · intro h1
      rw [hc] at h1
      omega
    · rw [hc1, hc2]
      exact hInv
    · intro _
      rw [hc1, hc2]
      rcases Nat.eq_zero_or_pos s.newStateCount with h0 | h0
      · rw [h0]
        simpa using ht
      · have hi := hInv h0
        omega
  · intro hcom
    have hs := tick_committed_struct s i hcom
    have h19 : 1 ≤ s.newStateCount := by omega
    have hi := hInv h19
    have hg1 := hs.1
    omega

theorem noEarlyCommit_of_inv (T : Nat) (js : List TickInput) :
    ∀ s : DoorState, InvC4 T s → (∀ j ∈ js, T ≤ j.t0) →
    noEarlyCommit (T + minDoorWaitTime) s js = true := by
  induction js with
  | nil =>
    intro s _ _
    rfl
  | cons j js ih =>
    intro s hInv hall
    have hstep := invC4_step T s j hInv (hall j (List.mem_cons_self j js))
    unfold noEarlyCommit
    rw [Bool.and_eq_true]
    refine ⟨?_, ih (tick s j).state hstep.1 (fun x hx => hall x (List.mem_cons_of_mem j hx))⟩
    cases hcom : (tick s j).committed
    · simp [hcom]
    · simp only [hcom, Bool.not_true, Bool.false_or, decide_eq_true_eq]
      exact hstep.2 hcom

/- ### Claim theorems -/

/-- Claim C3: with the configured constants the derived commit threshold is
ceil(300000 / 15000) = 20 and at least 1; from a committed DARK state, 19
consecutive LIGHT classifications do not commit (the counter reaches 19 and
the state stays DARK), and the 20th commits the state to LIGHT and resets
the counter to 0. -/
theorem C3_commit_threshold_scenario :
    newStateThreshold = 20 ∧ 1 ≤ newStateThreshold ∧
    getLightState (readLightSensor 0) = LightState.LIGHT ∧
    (initState darkBoot).currentLightState = LightState.DARK ∧
    commitsIn (initState darkBoot) c1Prefix = 0 ∧
    (runTicks (initState darkBoot) c1Prefix).newStateCount = 19 ∧
    (runTicks (initState darkBoot) c1Prefix).currentLightState = LightState.DARK ∧
    (tick (runTicks (initState darkBoot) c1Prefix) commitInput).committed = true ∧
    (tick (runTicks (initState darkBoot) c1Prefix) commitInput).state.currentLightState
      = LightState.LIGHT ∧
    (tick (runTicks (initState darkBoot) c1Prefix) commitInput).state.newStateCount = 0 := by
  decide

/-- Claim C4: for an actuation whose completion (stopDoorMotor) is observed
at time T = tDone of the stopping iteration, every automatic sampling-driven
commit in any later run of iterations (all at times at least T) has decision
time at least T + minDoorWaitTime; and while the dwell gate is closed the
debouncer is fed no sample at all: the sampling branch does not run, the
check clock does not advance and no commit fires on that iteration. -/
theorem C4_cooldown_gate :
    (∀ (s : DoorState) (i : TickInput) (js : List TickInput),
      Reachable s → (tick s i).stopped = true →
      (∀ j ∈ js, i.tDone ≤ j.t0) →
      noEarlyCommit (i.tDone + minDoorWaitTime) (tick s i).state js = true) ∧
    (∀ (s : DoorState) (i : TickInput),
      s.doorRunning = false →
      i.t0 - s.lastDoorMotorRunTime < minDoorWaitTime →
      (tick s i).sampled = none ∧
      (tick s i).state.lastLightCheck = s.lastLightCheck ∧
      (tick s i).committed = false) := by
  constructor
  · intro s i js hreach hstop hall
    have hcount := stopped_count_zero s i hreach hstop
    have hInv : InvC4 i.tDone (tick s i).state := by
      intro h1
      rw [hcount] at h1
      omega
    exact noEarlyCommit_of_inv i.tDone js (tick s i).state hInv hall
  · intro s i hr hdw
    rw [tick_idle_closed s i hr (Or.inr hdw)]
    dsimp only
    refine ⟨rfl, ?_, rfl⟩
    exact ((donePhase_fields _ i.tDone).2.2.1).trans (buttonPhase_llc s i.t0 i)

/-- Claim C4 witness: the dwell bound applied to a concrete manual run
started at t = 3000, stopped at t = 30000, followed by a sampling iteration
at t = 40000. -/
theorem C4_cooldown_gate_witness :
    noEarlyCommit (c4Stop.tDone + minDoorWaitTime)
      (tick (tick (initState darkBoot) c4Start).state c4Stop).state [c4After] = true :=
  C4_cooldown_gate.1 (tick (initState darkBoot) c4Start).state c4Stop [c4After]
    (Reachable.step (initState darkBoot) c4Start (Reachable.init darkBoot))
    (by decide) (by decide)

/-- Claim C5: in every reachable state the debounce counter lies in
[0, newStateThreshold); on a sampling iteration with the gate open, a
NEUTRAL or agreeing sample resets the counter to 0 without committing, a
non-neutral disagreeing sample increments it by exactly 1 (no commit while
still below the threshold), and on reaching newStateThreshold the commit
fires and the counter resets to 0; consequently the counter is exactly
newStateThreshold - 1 immediately before any commit. -/
theorem C5_debounce_invariant :
    (∀ s : DoorState, Reachable s → s.newStateCount < newStateThreshold) ∧
    (∀ (s : DoorState) (ct a1 tS1 : Nat),
      lightCheckDelay ≤ ct - s.lastLightCheck →
      minDoorWaitTime ≤ ct - s.lastDoorMotorRunTime →
      ((getLightState (readLightSensor a1) = LightState.NEUTRAL ∨
        getLightState (readLightSensor a1) = s.currentLightState) →
        (lightPhase s ct a1 tS1).state.newStateCount = 0 ∧
        (lightPhase s ct a1 tS1).committed = false) ∧
      (getLightState (readLightSensor a1) ≠ LightState.NEUTRAL →
       getLightState (readLightSensor a1) ≠ s.currentLightState →
        (s.newStateCount + 1 < newStateThreshold →
          (lightPhase s ct a1 tS1).state.newStateCount = s.newStateCount + 1 ∧
          (lightPhase s ct a1 tS1).committed = false) ∧
        (newStateThreshold ≤ s.newStateCount + 1 →
          (lightPhase s ct a1 tS1).committed = true ∧
          (lightPhase s ct a1 tS1).state.newStateCount = 0))) ∧
    (∀ (s : DoorState) (i : TickInput), Reachable s →
      (tick s i).committed = true → s.newStateCount = newStateThreshold - 1) := by
  refine ⟨fun s h => reachable_count_lt s h, ?_, ?_⟩
  · intro s ct a1 tS1 hg1 hg2
    rw [lightPhase_open s ct a1 tS1 ⟨hg1, hg2⟩]
    constructor
    · intro hor
      have hres : ¬(getLightState (readLightSensor a1) ≠ LightState.NEUTRAL ∧
          getLightState (readLightSensor a1) ≠ s.currentLightState) := by
        rcases hor with h | h
        · exact fun hc => hc.1 h
        · exact fun hc => hc.2 h
      have h0 : ¬ newStateThreshold ≤ (0 : Nat) := by decide
      rw [countStep_reset s _ hres, commitStep_no _ ct _ _ tS1 h0]
      exact ⟨rfl, rfl⟩
    · intro h1 h2
      rw [countStep_inc s _ h1 h2]
      constructor
      · intro hlt
        have hno : ¬ newStateThreshold ≤ s.newStateCount + 1 := by omega
        rw [commitStep_no _ ct _ _ tS1 hno]
        exact ⟨rfl, rfl⟩
      · intro hth
        rw [commitStep_yes _ ct _ _ tS1 hth]
        exact ⟨rfl, rfl⟩
  · intro s i hreach hcom
    have hlt := reachable_count_lt s hreach
    have hth := (tick_committed_struct s i hcom).2.2
    omega

/-- Claim C5 witness: the increment case applied at the boot state and a
fully lit sample at t = 30000. -/
theorem C5_debounce_invariant_witness :
    (lightPhase (initState darkBoot) 30000 0 0).state.newStateCount = 1 ∧
    (lightPhase (initState darkBoot) 30000 0 0).committed = false :=
  ((C5_debounce_invariant.2.1 (initState darkBoot) 30000 0 0
      (by decide) (by decide)).2 (by decide) (by decide)).1 (by decide)

/-- Claim C6: with the door idle (and no light check due this iteration):
a held button whose continuous-hold mark is at most holdDelay old triggers
nothing and changes nothing; once the hold exceeds holdDelay the trigger
fires exactly once, resets the hold mark to the trigger time, resynchronizes
the committed light state to the instantaneous classification (possibly
NEUTRAL), clears the debounce counter, restarts the dwell clock at
currentTime and starts the motor; an unpressed button only moves the hold
mark. Concretely, holding from t = 0: nothing at t = 2000, one trigger at
t = 2300 with the hold mark moved to 2300, and no retrigger at t = 2500. -/
theorem C6_manual_override :
    (∀ (s : DoorState) (i : TickInput), s.doorRunning = false →
      i.t0 - s.lastLightCheck < lightCheckDelay →
      i.buttonLow = true → i.tBtn - s.startHoldTime ≤ holdDelay →
      (tick s i).starts = [] ∧ (tick s i).state = s) ∧
    (∀ (s : DoorState) (i : TickInput), s.doorRunning = false →
      i.t0 - s.lastLightCheck < lightCheckDelay →
      i.buttonLow = true → holdDelay < i.tBtn - s.startHoldTime →
      (tick s i).starts = [i.tS2] ∧
      (tick s i).state.startHoldTime = i.tHold ∧
      (tick s i).state.currentLightState = getLightState (readLightSensor i.analog2) ∧
      (tick s i).state.newStateCount = 0 ∧
      (tick s i).state.lastDoorMotorRunTime = i.t0 ∧
      (tick s i).state.doorRunningStartTime = i.tS2) ∧
    (∀ (s : DoorState) (i : TickInput), s.doorRunning = false →
      i.t0 - s.lastLightCheck < lightCheckDelay →
      i.buttonLow = false →
      (tick s i).starts = [] ∧ (tick s i).state = { s with startHoldTime := i.tRel }) ∧
    ((tick (initState darkBoot) held2000).starts = [] ∧
     (tick (initState darkBoot) held2300).starts = [2301] ∧
     (tick (initState darkBoot) held2300).state.startHoldTime = 2300 ∧
     (tick (tick (initState darkBoot) held2300).state held2500).starts = []) := by
  refine ⟨?_, ?_, ?_, by decide, by decide, by decide, by decide⟩
  · intro s i hrun hlt hlow hsh
    rw [tick_idle_closed s i hrun (Or.inl hlt), buttonPhase_held_short s i.t0 i hlow hsh]
    dsimp only
    rw [donePhase_idle s i.tDone hrun]
    exact ⟨rfl, rfl⟩
  · intro s i hrun hlt hlow hld
    rw [tick_idle_closed s i hrun (Or.inl hlt), buttonPhase_trigger s i.t0 i hlow hld]
    dsimp only
    rcases donePhase_cases (startDoorMotor
        { s with startHoldTime := i.tHold,
                 currentLightState := getLightState (readLightSensor i.analog2),
                 newStateCount := 0, lastDoorMotorRunTime := i.t0 } i.tS2) i.tDone
      with hc | ⟨_, _, hc⟩ <;> (rw [hc]; exact ⟨rfl, rfl, rfl, rfl, rfl, rfl⟩)
  · intro s i hrun hlt hlow
    rw [tick_idle_closed s i hrun (Or.inl hlt), buttonPhase_up s i.t0 i hlow]
    dsimp only
    rw [donePhase_idle { s with startHoldTime := i.tRel } i.tDone hrun]
    exact ⟨rfl, rfl⟩

/-- Claim C6 witness: the confirmed-trigger case applied at the concrete
t = 2300 poll. -/
theorem C6_manual_override_witness :
    (tick (initState darkBoot) held2300).starts = [held2300.tS2] ∧
    (tick (initState darkBoot) held2300).state.newStateCount = 0 :=
  ⟨(C6_manual_override.2.1 (initState darkBoot) held2300
      (by decide) (by decide) (by decide) (by decide)).1,
   (C6_manual_override.2.1 (initState darkBoot) held2300
      (by decide) (by decide) (by decide) (by decide)).2.2.2.1⟩

/-- Claim C7: isDoorMotorDone now is true exactly when the door is running
and now minus the recorded start time has reached doorRunTime; it is a pure
query, monotone once true; for a run started at t = 0 with a 20000 ms run
time it is false at 19999 and true at 20000; stop clears the running flag
and a following start takes effect immediately. -/
theorem C7_isDoorMotorDone :
    (∀ (s : DoorState) (now : Nat),
      isDoorMotorDone s now = true ↔
        s.doorRunning = true ∧ doorRunTime ≤ now - s.doorRunningStartTime) ∧
    (∀ (s : DoorState) (n m : Nat), n ≤ m →
      isDoorMotorDone s n = true → isDoorMotorDone s m = true) ∧
    (∀ s : DoorState,
      isDoorMotorDone (startDoorMotor s 0) 19999 = false ∧
      isDoorMotorDone (startDoorMotor s 0) 20000 = true ∧
      (stopDoorMotor (startDoorMotor s 0)).doorRunning = false ∧
      ∀ t : Nat,
        (startDoorMotor (stopDoorMotor (startDoorMotor s 0)) t).doorRunning = true ∧
        (startDoorMotor (stopDoorMotor (startDoorMotor s 0)) t).doorRunningStartTime = t) := by
  refine ⟨?_, ?_, ?_⟩
  · intro s now
    simp [isDoorMotorDone]
  · intro s n m hnm h
    simp only [isDoorMotorDone, Bool.and_eq_true, decide_eq_true_eq] at h ⊢
    exact ⟨h.1, le_trans h.2 (Nat.sub_le_sub_right hnm _)⟩
  · intro s
    refine ⟨?_, ?_, rfl, fun t => ⟨rfl, rfl⟩⟩
    · simp [isDoorMotorDone, startDoorMotor, doorRunTime, doorRunTimeSeconds]
    · simp [isDoorMotorDone, startDoorMotor, doorRunTime, doorRunTimeSeconds]

/-- Claim C7 witness: monotonicity applied at a concrete run. -/
theorem C7_isDoorMotorDone_witness :
    isDoorMotorDone (startDoorMotor (initState darkBoot) 0) 25000 = true :=
  C7_isDoorMotorDone.2.1 (startDoorMotor (initState darkBoot) 0) 20000 25000
    (by decide) (by decide)

/-- Claim C8 counterexample: the value 250 lies in the interval
[darkStateThreshold, lightStateThreshold) yet getLightState classifies it
DARK, not NEUTRAL, because the DARK comparison is inclusive. -/
theorem C8_counterexample :
    darkStateThreshold ≤ (250 : Int) ∧ (250 : Int) < lightStateThreshold ∧
    getLightState 250 = LightState.DARK := by
  decide

/-- Claim C8 (amended): the dead band is the open interval
(darkStateThreshold, lightStateThreshold): every value strictly between the
two thresholds is classified NEUTRAL. -/
theorem C8_deadband (v : Int)
    (h1 : darkStateThreshold < v) (h2 : v < lightStateThreshold) :
    getLightState v = LightState.NEUTRAL := by
  unfold getLightState
  rw [if_neg (by omega), if_neg (by omega)]

/-- Claim C8 witness: a value in the middle of the dead band. -/
theorem C8_deadband_witness : getLightState 400 = LightState.NEUTRAL :=
  C8_deadband 400 (by decide) (by decide)

/-- Claim C1 (amended): across iterations of loop the running flag guards
both trigger paths: in an iteration that begins with doorRunning true,
nothing is sampled, no startDoorMotor call occurs, no commit fires and
doorRunningStartTime is unchanged. Within a single iteration, however, the
guard is only evaluated once, so a light-driven commit followed by a
confirmed button hold in the same iteration calls startDoorMotor twice and
the second call takes effect (see the counterexample). -/
theorem C1_running_guard (s : DoorState) (i : TickInput) (h : s.doorRunning = true) :
    (tick s i).starts = [] ∧
    (tick s i).state.doorRunningStartTime = s.doorRunningStartTime ∧
    (tick s i).committed = false ∧ (tick s i).sampled = none := by
  rw [tick_running s i h]
  refine ⟨rfl, ?_, rfl, rfl⟩
  rcases donePhase_cases s i.tDone with hc | ⟨_, _, hc⟩ <;> (rw [hc]; try rfl)

/-- Claim C1 witness: the guard applied to a freshly started door. -/
theorem C1_running_guard_witness :
    (tick (startDoorMotor (initState darkBoot) 5) c1Input).starts = [] ∧
    (tick (startDoorMotor (initState darkBoot) 5) c1Input).state.doorRunningStartTime = 5 ∧
    (tick (startDoorMotor (initState darkBoot) 5) c1Input).committed = false ∧
    (tick (startDoorMotor (initState darkBoot) 5) c1Input).sampled = none :=
  C1_running_guard (startDoorMotor (initState darkBoot) 5) c1Input (by decide)

/-- Claim C1 counterexample: from a reachable idle state with the counter at
19, one iteration in which the 20th disagreeing sample commits and the
button hold is already confirmed calls startDoorMotor twice; the second call
takes effect while the door is running and moves doorRunningStartTime from
315001 to 317002. -/
theorem C1_counterexample :
    Reachable (runTicks (initState darkBoot) c1Prefix) ∧
    (runTicks (initState darkBoot) c1Prefix).doorRunning = false ∧
    (runTicks (initState darkBoot) c1Prefix).newStateCount = 19 ∧
    (tick (runTicks (initState darkBoot) c1Prefix) c1Input).starts = [315001, 317002] ∧
    (tick (runTicks (initState darkBoot) c1Prefix) c1Input).state.doorRunningStartTime
      = 317002 := by
  refine ⟨reachable_runTicks c1Prefix (initState darkBoot) (Reachable.init darkBoot),
    by decide, by decide, by decide, by decide⟩

/-- Claim C2 (amended): on every iteration in which the manual-override
trigger does not fire, the committed light state changes only through a
commit: the sampling gate was open, the fresh sample was non-neutral and
disagreed with the committed state, the counter had just reached
newStateThreshold, and the new committed state is the sampled one with the
counter reset to 0; in particular it never changes on a NEUTRAL or agreeing
sample. (A confirmed manual trigger instead resynchronizes the committed
state to the instantaneous classification, see the counterexample.) -/
theorem C2_commit_discipline (s : DoorState) (i : TickInput)
    (hman : ¬ manualTrigger s i)
    (hchange : (tick s i).state.currentLightState ≠ s.currentLightState) :
    (tick s i).sampled = some (readLightSensor i.analog1) ∧
    getLightState (readLightSensor i.analog1) ≠ LightState.NEUTRAL ∧
    getLightState (readLightSensor i.analog1) ≠ s.currentLightState ∧
    newStateThreshold ≤ s.newStateCount + 1 ∧
    (tick s i).committed = true ∧
    (tick s i).state.currentLightState = getLightState (readLightSensor i.analog1) ∧
    (tick s i).state.newStateCount = 0 := by
  by_cases hr : s.doorRunning = true
  · exfalso
    apply hchange
    rw [tick_running s i hr]
    rcases donePhase_cases s i.tDone with hc | ⟨_, _, hc⟩ <;> (rw [hc]; try rfl)
  · rw [Bool.not_eq_true] at hr
    have hnb : ¬(i.buttonLow = true ∧ holdDelay < i.tBtn - s.startHoldTime) :=
      fun hb => hman ⟨hr, hb.1, hb.2⟩
    by_cases hg : lightCheckDelay ≤ i.t0 - s.lastLightCheck ∧
        minDoorWaitTime ≤ i.t0 - s.lastDoorMotorRunTime
    · rw [tick_idle s i hr, lightPhase_open s i.t0 i.analog1 i.tS1 hg] at hchange ⊢
      by_cases hcls : getLightState (readLightSensor i.analog1) ≠ LightState.NEUTRAL ∧
          getLightState (readLightSensor i.analog1) ≠ s.currentLightState
      · rw [countStep_inc s _ hcls.1 hcls.2] at hchange ⊢
        by_cases hth : newStateThreshold ≤ s.newStateCount + 1
        · rw [commitStep_yes _ i.t0 _ _ i.tS1 hth] at hchange ⊢
          dsimp only at hchange ⊢
          have hb := buttonPhase_no_trigger (startDoorMotor
            { s with currentLightState := getLightState (readLightSensor i.analog1),
                     newStateCount := 0, lastDoorMotorRunTime := i.t0,
                     lastLightCheck := i.t0 } i.tS1) i.t0 i hnb
          exact ⟨rfl, hcls.1, hcls.2, hth, rfl,
            ((donePhase_fields _ i.tDone).1).trans hb.2.1,
            ((donePhase_fields _ i.tDone).2.1).trans hb.2.2.1⟩
        · exfalso
          rw [commitStep_no _ i.t0 _ _ i.tS1 hth] at hchange
          dsimp only at hchange
          have hb := buttonPhase_no_trigger
            { s with lastLightCheck := i.t0, newStateCount := s.newStateCount + 1 }
            i.t0 i hnb
          exact hchange (((donePhase_fields _ i.tDone).1).trans hb.2.1)
      · exfalso
        have h0 : ¬ newStateThreshold ≤ (0 : Nat) := by decide
        rw [countStep_reset s _ hcls, commitStep_no _ i.t0 _ _ i.tS1 h0] at hchange
        dsimp only at hchange
        have hb := buttonPhase_no_trigger
          { s with lastLightCheck := i.t0, newStateCount := 0 } i.t0 i hnb
        exact hchange (((donePhase_fields _ i.tDone).1).trans hb.2.1)
    · exfalso
      have e1 : lightCheckDelay = 15000 := rfl
      have e2 : minDoorWaitTime = 20736 := by decide
      have hlt : i.t0 - s.lastLightCheck < lightCheckDelay ∨
          i.t0 - s.lastDoorMotorRunTime < minDoorWaitTime := by omega
      rw [tick_idle_closed s i hr hlt] at hchange
      dsimp only at hchange
      exact hchange (((donePhase_fields _ i.tDone).1).trans
        ((buttonPhase_no_trigger s i.t0 i hnb).2.1))

/-- Claim C2 witness: the commit characterization applied at the concrete
20th disagreeing sample of the scenario trace. -/
theorem C2_commit_discipline_witness :
    (tick (runTicks (initState darkBoot) c1Prefix) commitInput).committed = true ∧
    (tick (runTicks (initState darkBoot) c1Prefix) commitInput).state.newStateCount = 0 :=
  ⟨(C2_commit_discipline (runTicks (initState darkBoot) c1Prefix) commitInput
      (by decide) (by decide)).2.2.2.2.1,
   (C2_commit_discipline (runTicks (initState darkBoot) c1Prefix) commitInput
      (by decide) (by decide)).2.2.2.2.2.2⟩

/-- Claim C2 counterexample: from the boot state committed DARK, a single
iteration with a confirmed button hold whose instantaneous reading lies in
the dead band changes the committed state to NEUTRAL, although no sample was
fed to the debouncer and the only classification of the iteration is
NEUTRAL. -/
theorem C2_counterexample :
    Reachable (initState darkBoot) ∧
    (initState darkBoot).currentLightState = LightState.DARK ∧
    getLightState (readLightSensor c2Input.analog2) = LightState.NEUTRAL ∧
    (tick (initState darkBoot) c2Input).sampled = none ∧
    (tick (initState darkBoot) c2Input).state.currentLightState = LightState.NEUTRAL :=
  ⟨Reachable.init darkBoot, by decide, by decide, by decide, by decide⟩

/-- Claim C9: an iteration that begins with doorRunning true leaves the
light state, the debounce counter, the hold timer, the check clock, the
dwell clock and the recorded start time unchanged, samples nothing, starts
nothing and commits nothing; its only possible effect is to observe the run
duration elapsed and stop the motor. -/
theorem C9_running_frame (s : DoorState) (i : TickInput) (h : s.doorRunning = true) :
    (tick s i).state.currentLightState = s.currentLightState ∧
    (tick s i).state.newStateCount = s.newStateCount ∧
    (tick s i).state.startHoldTime = s.startHoldTime ∧
    (tick s i).state.lastLightCheck = s.lastLightCheck ∧
    (tick s i).state.lastDoorMotorRunTime = s.lastDoorMotorRunTime ∧
    (tick s i).state.doorRunningStartTime = s.doorRunningStartTime ∧
    (tick s i).starts = [] ∧ (tick s i).sampled = none ∧ (tick s i).committed = false ∧
    ((tick s i).state = s ∨
      ((tick s i).stopped = true ∧ isDoorMotorDone s i.tDone = true ∧
        (tick s i).state = stopDoorMotor s)) := by
  rw [tick_running s i h]
  rcases donePhase_cases s i.tDone with hc | ⟨_, hd, hc⟩ <;>
    (rw [hc];
     exact ⟨rfl, rfl, rfl, rfl, rfl, rfl, rfl, rfl, rfl,
       by first | exact Or.inl rfl | exact Or.inr ⟨rfl, hd, rfl⟩⟩)

/-- Claim C9 witness: the frame property applied to a running door. -/
theorem C9_running_frame_witness :
    (tick (startDoorMotor (initState darkBoot) 7) commitInput).state.currentLightState
      = (initState darkBoot).currentLightState ∧
    (tick (startDoorMotor (initState darkBoot) 7) commitInput).starts = [] :=
  ⟨(C9_running_frame (startDoorMotor (initState darkBoot) 7) commitInput (by decide)).1,
   (C9_running_frame (startDoorMotor (initState darkBoot) 7) commitInput (by decide)).2.2.2.2.2.2.1⟩

/-- Claim C10: on the AVR target (16-bit int) the initializer
minDoorWaitTimeHours * 60 * 60 * 1000 overflows: the stored constant is
20736 ms, not the 36000000 ms the comment documents; with a 32-bit int the
same initializer would give 36000000. -/
theorem C10_minDoorWaitTime_overflow :
    minDoorWaitTime = minDoorWaitTimeInit 16 ∧
    minDoorWaitTime = 20736 ∧
    minDoorWaitTimeHours * 60 * 60 * 1000 = 36000000 ∧
    minDoorWaitTime ≠ minDoorWaitTimeHours * 60 * 60 * 1000 ∧
    minDoorWaitTimeInit 32 = 36000000 := by
  exact ⟨rfl, by decide, by decide, by decide, by decide⟩

end ChickenDoor
